import Mathlib

/-!
Shallow embedding of the MoneyThumb classification, fraud-scoring and
pipeline core (`src/classifiers.py`, `src/core.py`).

Modelling conventions:
* free-text descriptions are lists of characters (assumed newline-free
  ASCII, as produced by the OCR collaborator);
* Python `Decimal` amounts/balances and `float` scores are exact rationals;
* the regular expressions used by the debit classifier all have the shape
  `.*A.*B.*` (ordered literal segments), modelled by ordered substring
  matching; `re.IGNORECASE` is modelled by uppercasing both sides;
* the Python `for`-loops with early `return` are modelled as recursive
  first-match functions over the same ordered rule tables.
-/

/-- Python whitespace (the `\s` class and the separators of `str.split()`). -/
def pySpace (c : Char) : Bool :=
  c == ' ' || c == '\t' || c == '\n' || c == '\r' || c == '\x0b' || c == '\x0c'

/-- Python `str.upper()` on an ASCII description: character-wise uppercase. -/
def upper (l : List Char) : List Char := l.map Char.toUpper

/-- Boolean list-prefix test on character lists. -/
def isPrefixOfL : List Char → List Char → Bool
  | [], _ => true
  | _ :: _, [] => false
  | a :: as, b :: bs => a == b && isPrefixOfL as bs

/-- First occurrence of `needle` in a string: returns the remainder after
that occurrence (`none` when `needle` does not occur). -/
def findRest (needle : List Char) : List Char → Option (List Char)
  | [] => if isPrefixOfL needle [] then some [] else none
  | c :: t =>
    if isPrefixOfL needle (c :: t) then some ((c :: t).drop needle.length)
    else findRest needle t

/-- Python substring containment `needle in s` (case already normalised). -/
def substrIn (needle s : List Char) : Bool := (findRest needle s).isSome

/-- `re.search` of a regex of the shape `.*A.*B.*…`: the literal segments
must occur left to right without overlap. -/
def seqMatch : List (List Char) → List Char → Bool
  | [], _ => true
  | p :: ps, s =>
    match findRest p s with
    | none => false
    | some rest => seqMatch ps rest

/-- Python `str.strip()`: drop leading and trailing whitespace. -/
def pyStrip (l : List Char) : List Char :=
  ((l.dropWhile pySpace).reverse.dropWhile pySpace).reverse

/-- Helper of `wordsOf`: split on every whitespace character (producing
empty chunks at whitespace runs). -/
def splitChunks (l : List Char) : List (List Char) :=
  l.foldr
    (fun c acc =>
      if pySpace c then [] :: acc
      else
        match acc with
        | [] => [[c]]
        | w :: ws => (c :: w) :: ws)
    []

/-- Python `str.split()` with no argument: whitespace-delimited words. -/
def wordsOf (l : List Char) : List (List Char) :=
  (splitChunks l).filter (fun w => !w.isEmpty)

/-- Python `' '.join(ws)`. -/
def joinSpace : List (List Char) → List Char
  | [] => []
  | [w] => w
  | w :: ws => w ++ ' ' :: joinSpace ws

/-- The regex character class `[:\s]` of the lender-name pattern. -/
def isColonOrSpace (c : Char) : Bool := c == ':' || pySpace c

/-- The regex character class `[A-Z]`. -/
def isCapital (c : Char) : Bool := decide ('A' ≤ c) && decide (c ≤ 'Z')

/-- The regex character class `[A-Z\s]`. -/
def isCapitalOrSpace (c : Char) : Bool := isCapital c || pySpace c

/-!  Data model.  -/

/-- `TransactionType` of the data model (credit = deposit, debit =
withdrawal). -/
inductive TransactionType
  | CREDIT
  | DEBIT
  deriving DecidableEq, Repr

/-- `TransactionCategory` of the data model: the five categories the
classifier can assign. -/
inductive TransactionCategory
  | TRUE_REVENUE
  | NON_TRUE_REVENUE
  | MCA_PAYMENT
  | OPERATING_EXPENSE
  | TRANSFER_OUT
  deriving DecidableEq, Repr

/-- Modelled from the spec: the transaction `date` of the data model
(`models.py` is outside the verified sources).  The core reads only the
calendar month key and the Python `weekday()` projection (Monday = 0 …
Sunday = 6), so the weekday is carried as an explicit field rather than
recomputed from the calendar. -/
structure Date where
  year : Nat
  month : Nat
  day : Nat
  weekday : Nat
  deriving DecidableEq, Repr

/-- Modelled from the spec: the `Transaction` record of the data model
(`models.py` is outside the verified sources): `date`, free-text
`description`, signed `amount`, post-transaction `balance`, a credit/debit
direction, plus the mutable fields assigned by the classification core
(`category`, `is_true_revenue`, `is_mca_payment`, `mca_lender`).  Raw
transactions arrive from the OCR collaborator with `category` unset and
the flags at their defaults. -/
structure Transaction where
  date : Date
  description : List Char
  amount : ℚ
  balance : ℚ
  transaction_type : TransactionType
  category : Option TransactionCategory
  is_true_revenue : Bool
  is_mca_payment : Bool
  mca_lender : Option (List Char)
  deriving DecidableEq, Repr

/-!  Rule tables of `TransactionClassifier.__init__`
     (`src/classifiers.py` lines 12-75).  -/

/-- `credit_categories['true_revenue']`. -/
def credit_true_revenue : List (List Char) := [
  ("ACH Credit from customers").data,
  ("Wire transfers from clients").data,
  ("Check deposits from sales").data,
  ("Credit card deposits").data,
  ("Cash deposits").data,
  ("PAYMENT").data,
  ("DEPOSIT").data,
  ("CREDIT CARD SETTLEMENT").data,
  ("WIRE TRANSFER").data,
  ("ACH CREDIT").data]

/-- `credit_categories['non_true_revenue']`. -/
def credit_non_true_revenue : List (List Char) := [
  ("Online Transfer From").data,
  ("Reversal").data,
  ("Credit Return").data,
  ("Book Transfer Credit").data,
  ("Loan proceeds").data,
  ("MCA deposits").data,
  ("TRANSFER FROM").data,
  ("RETURN ITEM").data,
  ("LOAN DEPOSIT").data,
  ("TAX REFUND").data,
  ("INSURANCE CLAIM").data]

/-- `debit_categories['mca_payments']['patterns']`: each regex is recorded
as its ordered list of literal segments (the pieces between the `.*`). -/
def mca_payment_patterns : List (List (List Char)) := [
  [("MERCHANT").data, ("CAPITAL").data],
  [("BUSINESS").data, ("ADVANCE").data],
  [("DAILY").data, ("ACH").data],
  [("WORKING").data, ("CAPITAL").data],
  [("Orig CO Name").data, ("Financial").data],
  [("FUNDING").data, ("CIRCLE").data],
  [("KABBAGE").data],
  [("ONDECK").data],
  [("FORWARD").data, ("FINANCING").data],
  [("RAPID").data, ("ADVANCE").data]]

/-- `debit_categories['operating_expenses']`. -/
def operating_expenses : List (List Char) := [
  ("Payroll").data, ("Rent").data, ("Utilities").data, ("Supplies").data,
  ("PAYROLL").data, ("SALARY").data, ("WAGE").data, ("RENT PAYMENT").data,
  ("ELECTRIC").data, ("GAS").data, ("WATER").data, ("INTERNET").data]

/-- `debit_categories['transfers_out']`. -/
def transfers_out : List (List Char) := [
  ("Online Transfer To").data, ("Wire Transfer Out").data,
  ("TRANSFER TO").data, ("WIRE OUT").data, ("BOOK TRANSFER").data]

/-- `nsf_patterns`. -/
def nsf_patterns : List (List Char) := [
  ("NSF").data, ("Non-sufficient funds").data,
  ("Overdraft").data, ("Return Item").data,
  ("Insufficient Funds").data, ("OD Fee").data,
  ("OVERDRAFT FEE").data, ("RETURNED ITEM").data,
  ("INSUFFICIENT").data]

/-!  Lender-name extraction (`_extract_lender_name`, lines 164-184).  -/

/-- Tail of the regex `Orig CO Name[:\s]*([A-Z\s]+)` after its literal:
greedily skip colons and whitespace; a following capital letter starts the
captured group; otherwise the engine backtracks the `[:\s]*`, and the group
degenerates to the last whitespace character of the skipped run, if any. -/
def origTail (r : List Char) : Option (List Char) :=
  match r.dropWhile isColonOrSpace with
  | c :: rest =>
    if isCapital c then some ((c :: rest).takeWhile isCapitalOrSpace)
    else
      match ((r.takeWhile isColonOrSpace).filter pySpace).getLast? with
      | some w => some [w]
      | none => none
  | [] =>
    match ((r.takeWhile isColonOrSpace).filter pySpace).getLast? with
    | some w => some [w]
    | none => none

/-- Attempt the `Orig CO Name[:\s]*([A-Z\s]+)` pattern at the head of `s`
(the description is already uppercased, so `re.IGNORECASE` reduces to the
uppercased literal). -/
def origAt (s : List Char) : Option (List Char) :=
  if isPrefixOfL (("ORIG CO NAME").data) s then origTail (s.drop 12) else none

/-- `re.search` of `Orig CO Name[:\s]*([A-Z\s]+)`: try each start position
left to right, as the backtracking engine does. -/
def origCoSearch : List Char → Option (List Char)
  | [] => none
  | c :: t =>
    match origAt (c :: t) with
    | some g => some g
    | none => origCoSearch t

/-- `_extract_lender_name` (`src/classifiers.py` lines 164-184).  The
caller passes the uppercased description; descriptions are newline-free,
so a group `(.*KEYWORD.*)` captures the whole description.  Every capture
is `strip`ped; the fallback joins the first three whitespace-split words
and yields `none` only when the description splits into no words. -/
def extract_lender_name (description : List Char) : Option (List Char) :=
  if substrIn (("CAPITAL").data) description then some (pyStrip description)
  else if substrIn (("FINANCIAL").data) description then some (pyStrip description)
  else if substrIn (("FUNDING").data) description then some (pyStrip description)
  else if substrIn (("ADVANCE").data) description then some (pyStrip description)
  else
    match origCoSearch description with
    | some g => some (pyStrip g)
    | none =>
      match wordsOf description with
      | [] => none
      | w :: ws => some (joinSpace ((w :: ws).take 3))

/-!  The classifier (`TransactionClassifier`, lines 77-162).  -/

/-- The `for pattern in self.credit_categories['non_true_revenue']` loop of
`_classify_credit`: first match wins and returns. -/
def credit_non_true_loop (t : Transaction) (desc : List Char) :
    List (List Char) → Option Transaction
  | [] => none
  | p :: ps =>
    if substrIn (upper p) desc then
      some { t with category := some TransactionCategory.NON_TRUE_REVENUE,
                    is_true_revenue := false }
    else credit_non_true_loop t desc ps

/-- The `for pattern in self.credit_categories['true_revenue']` loop of
`_classify_credit`. -/
def credit_true_loop (t : Transaction) (desc : List Char) :
    List (List Char) → Option Transaction
  | [] => none
  | p :: ps =>
    if substrIn (upper p) desc then
      some { t with category := some TransactionCategory.TRUE_REVENUE,
                    is_true_revenue := true }
    else credit_true_loop t desc ps

/-- The `for pattern in ...['mca_payments']['patterns']` loop of
`_classify_debit` (regex search, `re.IGNORECASE`). -/
def debit_mca_loop (t : Transaction) (desc : List Char) :
    List (List (List Char)) → Option Transaction
  | [] => none
  | ps :: rest =>
    if seqMatch (ps.map upper) desc then
      some { t with category := some TransactionCategory.MCA_PAYMENT,
                    is_mca_payment := true,
                    mca_lender := extract_lender_name desc }
    else debit_mca_loop t desc rest

/-- The `for expense in ...['operating_expenses']` loop of
`_classify_debit`. -/
def debit_expense_loop (t : Transaction) (desc : List Char) :
    List (List Char) → Option Transaction
  | [] => none
  | p :: ps =>
    if substrIn (upper p) desc then
      some { t with category := some TransactionCategory.OPERATING_EXPENSE }
    else debit_expense_loop t desc ps

/-- The `for transfer in ...['transfers_out']` loop of `_classify_debit`. -/
def debit_transfer_loop (t : Transaction) (desc : List Char) :
    List (List Char) → Option Transaction
  | [] => none
  | p :: ps =>
    if substrIn (upper p) desc then
      some { t with category := some TransactionCategory.TRANSFER_OUT }
    else debit_transfer_loop t desc ps

/-- The `for pattern in self.nsf_patterns` loop of `_is_nsf_transaction`. -/
def nsf_pattern_loop (desc : List Char) : List (List Char) → Bool
  | [] => false
  | p :: ps => substrIn (upper p) desc || nsf_pattern_loop desc ps

/-- `_classify_credit` (`src/classifiers.py` lines 94-115). -/
def classify_credit (t : Transaction) (desc : List Char) : Transaction :=
  match credit_non_true_loop t desc credit_non_true_revenue with
  | some r => r
  | none =>
    match credit_true_loop t desc credit_true_revenue with
    | some r => r
    | none =>
      { t with category := some TransactionCategory.TRUE_REVENUE,
               is_true_revenue := true }

/-- `_classify_debit` (`src/classifiers.py` lines 117-143). -/
def classify_debit (t : Transaction) (desc : List Char) : Transaction :=
  match debit_mca_loop t desc mca_payment_patterns with
  | some r => r
  | none =>
    match debit_expense_loop t desc operating_expenses with
    | some r => r
    | none =>
      match debit_transfer_loop t desc transfers_out with
      | some r => r
      | none => { t with category := some TransactionCategory.OPERATING_EXPENSE }

/-- `_is_nsf_transaction` (`src/classifiers.py` lines 145-162). -/
def is_nsf_transaction (t : Transaction) (desc : List Char) : Bool :=
  nsf_pattern_loop desc nsf_patterns ||
  decide (t.balance < 0) ||
  (substrIn (("RETURN").data) desc && decide (0 < t.amount))

/-- `classify_transaction` (`src/classifiers.py` lines 77-92). -/
def classify_transaction (t : Transaction) : Transaction :=
  let desc := upper t.description
  let t1 :=
    if t.transaction_type = TransactionType.CREDIT then classify_credit t desc
    else classify_debit t desc
  if is_nsf_transaction t1 desc then
    { t1 with category := some TransactionCategory.NON_TRUE_REVENUE }
  else t1

/-!  Fraud detection (`FraudDetector`, `src/classifiers.py` lines 187-287).  -/

/-- The credit transactions of a statement (the filter used by all four
fraud checks). -/
def credits (transactions : List Transaction) : List Transaction :=
  transactions.filter (fun t => decide (t.transaction_type = TransactionType.CREDIT))

/-- `float(t.amount) % 100 == 0`: the amount is an exact multiple of 100
(Python float modulo on a decimal amount, modelled exactly on ℚ). -/
def is_round_amount (a : ℚ) : Bool := (a / 100).den == 1

/-- `_has_round_number_pattern` (lines 230-239). -/
def has_round_number_pattern (transactions : List Transaction) : Bool :=
  let cs := credits transactions
  if cs.length < 10 then false
  else
    let round_numbers := (cs.filter (fun t => is_round_amount t.amount)).length
    decide ((3 : ℚ) / 10 < (round_numbers : ℚ) / (cs.length : ℚ))

/-- `_has_identical_deposits` (lines 241-252): some credit amount recurs
more than 5 times. -/
def has_identical_deposits (transactions : List Transaction) : Bool :=
  let amounts := (credits transactions).map (fun t => t.amount)
  amounts.any (fun a => decide (5 < amounts.count a))

/-- `_has_unusual_timing` (lines 254-272): the loop counts credit
transactions and those dated Saturday (5) or Sunday (6). -/
def has_unusual_timing (transactions : List Transaction) : Bool :=
  let total_deposits := (credits transactions).length
  let weekend_deposits :=
    ((credits transactions).filter (fun t => decide (5 ≤ t.date.weekday))).length
  if total_deposits = 0 then false
  else decide ((1 : ℚ) / 5 < (weekend_deposits : ℚ) / (total_deposits : ℚ))

/-- `_has_pattern_breaks` (lines 274-287). -/
def has_pattern_breaks (transactions : List Transaction) : Bool :=
  let cs := credits transactions
  if cs.length < 20 then false
  else
    let amounts := cs.map (fun t => t.amount)
    let avg_amount := amounts.sum / (amounts.length : ℚ)
    amounts.any (fun a => decide (avg_amount * 5 < a))

/-- `calculate_thumbprint_score` (lines 201-228): sequential accumulation
of the four fixed contributions and their labels, capped at 1000. -/
def calculate_thumbprint_score (transactions : List Transaction) :
    Nat × List String :=
  let sf0 : Nat × List String := (0, [])
  let sf1 :=
    if has_round_number_pattern transactions then
      (sf0.1 + 150, sf0.2 ++ [("Round number deposits")]) else sf0
  let sf2 :=
    if has_identical_deposits transactions then
      (sf1.1 + 200, sf1.2 ++ [("Repeated identical amounts")]) else sf1
  let sf3 :=
    if has_unusual_timing transactions then
      (sf2.1 + 100, sf2.2 ++ [("Unusual deposit timing")]) else sf2
  let sf4 :=
    if has_pattern_breaks transactions then
      (sf3.1 + 100, sf3.2 ++ [("Inconsistent patterns")]) else sf3
  (min sf4.1 1000, sf4.2)

/-!  Pipeline data shapes (`src/core.py`; the record declarations live in
`models.py`, outside the verified sources, and are modelled from the
spec).  -/

/-- Modelled from the spec: the `BankAccount` record of the data model
(bank name, masked account number, statement period), produced by the OCR
collaborator and read-only afterwards. -/
structure BankAccount where
  bank_name : List Char
  account_number : List Char
  statement_start : Date
  statement_end : Date
  deriving DecidableEq, Repr

/-- Modelled from the spec: the `MCAPosition` record (lender name, daily
payment, ordinal position), produced by the MCA-detection collaborator. -/
structure MCAPosition where
  lender_name : List Char
  daily_payment : ℚ
  position_number : Nat
  deriving DecidableEq, Repr

/-- Modelled from the spec: the `MonthlyStats` record, one per calendar
month; the month key models the `'%Y-%m'` string as a (year, month) pair. -/
structure MonthlyStats where
  month : Nat × Nat
  total_deposits : ℚ
  true_revenue : ℚ
  ending_balance : ℚ
  days_negative : Nat
  deriving DecidableEq, Repr

/-- Modelled from the spec: the `UnderwritingMetrics` record, with the
fields named in `_empty_response` (`src/core.py` lines 169-178). -/
structure UnderwritingMetrics where
  average_monthly_revenue : ℚ
  revenue_stability : ℚ
  days_cash_on_hand : ℚ
  mca_payment_ratio : ℚ
  deposit_frequency : ℚ
  nsf_rate : ℚ
  negative_day_rate : ℚ
  fraud_score : Nat
  deriving DecidableEq, Repr

/-- Modelled from the spec: the `CashFlowMetrics` record, with the fields
named in `_empty_response` (`src/core.py` lines 180-187). -/
structure CashFlowMetrics where
  gross_cash_in : ℚ
  gross_cash_out : ℚ
  net_cash_flow : ℚ
  true_cash_flow : ℚ
  mca_burden : ℚ
  free_cash_flow : ℚ
  deriving DecidableEq, Repr

/-- The `month_data` dictionary assembled by `_calculate_overall_cashflow`
(`src/core.py` lines 129-135). -/
structure MonthData where
  all_deposits : List ℚ
  all_withdrawals : List ℚ
  true_revenue : ℚ
  operating_expenses : ℚ
  mca_payments : List ℚ
  deriving DecidableEq, Repr

/-- Modelled from the spec: the `MoneyThumbResponse` terminal aggregate. -/
structure MoneyThumbResponse where
  account : BankAccount
  transactions : List Transaction
  monthly_summaries : List MonthlyStats
  mca_positions : List MCAPosition
  metrics : UnderwritingMetrics
  cash_flow : CashFlowMetrics
  confidence_score : ℚ
  processing_time : ℚ
  deriving DecidableEq, Repr

/-- The OCR collaborator's output consumed by stage 1 of the pipeline. -/
structure OcrResult where
  account : BankAccount
  transactions : List Transaction
  confidence_score : ℚ

/-- Modelled from the spec: the external collaborator functions of the
pipeline (`analyzers.py` is outside the verified sources); the controller
treats them as black-box pure functions, so they are taken as record
fields of function type. -/
structure Collaborators where
  detect_positions : List Transaction → List MCAPosition
  calculate_monthly_stats : List Transaction → Nat × Nat → MonthlyStats
  calculate_metrics :
    List MonthlyStats → List Transaction → List MCAPosition → UnderwritingMetrics
  analyze_monthly_cashflow : Option MonthData → CashFlowMetrics

/-- Chronological order on (year, month) keys, modelling the lexicographic
sort of `'%Y-%m'` strings. -/
def monthLe (a b : Nat × Nat) : Bool :=
  decide (a.1 < b.1) || (decide (a.1 = b.1) && decide (a.2 ≤ b.2))

/-- Insertion step of the chronological month sort. -/
def monthInsert (x : Nat × Nat) : List (Nat × Nat) → List (Nat × Nat)
  | [] => [x]
  | y :: ys => if monthLe x y then x :: y :: ys else y :: monthInsert x ys

/-- `sorted(months)`: insertion sort by the chronological order. -/
def monthSort : List (Nat × Nat) → List (Nat × Nat)
  | [] => []
  | x :: xs => monthInsert x (monthSort xs)

/-- `_calculate_monthly_summaries` (`src/core.py` lines 88-106): the set of
distinct month keys, sorted ascending, one delegated summary per month. -/
def calculate_monthly_summaries (C : Collaborators)
    (transactions : List Transaction) : List MonthlyStats :=
  if transactions.isEmpty then []
  else
    let months := (transactions.map (fun t => (t.date.year, t.date.month))).dedup
    (monthSort months).map (fun m => C.calculate_monthly_stats transactions m)

/-- `_calculate_overall_cashflow` (`src/core.py` lines 108-137);
`Decimal('0.7')` is the exact rational 7/10; `none` models the empty
dictionary passed on the empty branch. -/
def calculate_overall_cashflow (C : Collaborators)
    (monthly_summaries : List MonthlyStats)
    (mca_positions : List MCAPosition) : CashFlowMetrics :=
  if monthly_summaries.isEmpty then C.analyze_monthly_cashflow none
  else
    let total_deposits := (monthly_summaries.map (fun m => m.total_deposits)).sum
    let total_true_revenue := (monthly_summaries.map (fun m => m.true_revenue)).sum
    let operating_expense_estimate := total_true_revenue * ((7 : ℚ) / 10)
    let monthly_mca_payments := mca_positions.map (fun p => p.daily_payment * 20)
    C.analyze_monthly_cashflow (some {
      all_deposits := [total_deposits],
      all_withdrawals := [operating_expense_estimate],
      true_revenue := total_true_revenue,
      operating_expenses := operating_expense_estimate,
      mca_payments := monthly_mca_payments })

/-- `_calculate_final_confidence` (`src/core.py` lines 139-161). -/
def calculate_final_confidence (base_confidence : ℚ)
    (transactions : List Transaction) (fraud_score : Nat) : ℚ :=
  let c0 := base_confidence
  let c1 :=
    if 500 < fraud_score then c0 - 3 / 10
    else if 200 < fraud_score then c0 - 1 / 10
    else c0
  let c2 := if transactions.length < 20 then c1 - 2 / 10 else c1
  let transaction_types := (transactions.filterMap (fun t => t.category)).dedup
  let c3 := if 3 ≤ transaction_types.length then c2 + 1 / 10 else c2
  max 0 (min 1 c3)

/-- `_empty_response` (`src/core.py` lines 163-198). -/
def empty_response (account : BankAccount) (processing_time : ℚ) :
    MoneyThumbResponse :=
  { account := account,
    transactions := [],
    monthly_summaries := [],
    mca_positions := [],
    metrics := {
      average_monthly_revenue := 0, revenue_stability := 0,
      days_cash_on_hand := 0, mca_payment_ratio := 0,
      deposit_frequency := 0, nsf_rate := 0,
      negative_day_rate := 0, fraud_score := 0 },
    cash_flow := {
      gross_cash_in := 0, gross_cash_out := 0, net_cash_flow := 0,
      true_cash_flow := 0, mca_burden := 0, free_cash_flow := 0 },
    confidence_score := 0,
    processing_time := processing_time }

/-- `process_bank_statement` (`src/core.py` lines 29-86).  The OCR stage
and wall-clock timing are I/O performed by collaborators; their outputs
(`ocr_result`, `elapsed`) are taken as parameters. -/
def process_bank_statement (C : Collaborators) (ocr_result : OcrResult)
    (elapsed : ℚ) : MoneyThumbResponse :=
  let account := ocr_result.account
  let raw_transactions := ocr_result.transactions
  let base_confidence := ocr_result.confidence_score
  if raw_transactions.isEmpty then empty_response account elapsed
  else
    let classified_transactions := raw_transactions.map classify_transaction
    let mca_positions := C.detect_positions classified_transactions
    let monthly_summaries := calculate_monthly_summaries C classified_transactions
    let metrics0 := C.calculate_metrics monthly_summaries classified_transactions mca_positions
    let fraud := calculate_thumbprint_score classified_transactions
    let metrics := { metrics0 with fraud_score := fraud.1 }
    let cash_flow := calculate_overall_cashflow C monthly_summaries mca_positions
    let final_confidence :=
      calculate_final_confidence base_confidence classified_transactions fraud.1
    { account := account,
      transactions := classified_transactions,
      monthly_summaries := monthly_summaries,
      mca_positions := mca_positions,
      metrics := metrics,
      cash_flow := cash_flow,
      confidence_score := final_confidence,
      processing_time := elapsed }

/-!  Characterisation lemmas: each first-match loop over a rule table whose
arms assign one uniform outcome is equivalent to a `List.any` test over the
same ordered table.  -/

theorem credit_non_true_loop_eq (t : Transaction) (desc : List Char)
    (ps : List (List Char)) :
    credit_non_true_loop t desc ps =
      (if ps.any (fun p => substrIn (upper p) desc) then
        some { t with category := some TransactionCategory.NON_TRUE_REVENUE,
                      is_true_revenue := false }
      else none) := by
  induction ps with
  | nil => simp [credit_non_true_loop]
  | cons p ps ih =>
      by_cases h : substrIn (upper p) desc = true <;>
        simp [credit_non_true_loop, h, ih]

theorem credit_true_loop_eq (t : Transaction) (desc : List Char)
    (ps : List (List Char)) :
    credit_true_loop t desc ps =
      (if ps.any (fun p => substrIn (upper p) desc) then
        some { t with category := some TransactionCategory.TRUE_REVENUE,
                      is_true_revenue := true }
      else none) := by
  induction ps with
  | nil => simp [credit_true_loop]
  | cons p ps ih =>
      by_cases h : substrIn (upper p) desc = true <;>
        simp [credit_true_loop, h, ih]

theorem debit_mca_loop_eq (t : Transaction) (desc : List Char)
    (pats : List (List (List Char))) :
    debit_mca_loop t desc pats =
      (if pats.any (fun ps => seqMatch (ps.map upper) desc) then
        some { t with category := some TransactionCategory.MCA_PAYMENT,
                      is_mca_payment := true,
                      mca_lender := extract_lender_name desc }
      else none) := by
  induction pats with
  | nil => simp [debit_mca_loop]
  | cons ps rest ih =>
      by_cases h : seqMatch (ps.map upper) desc = true <;>
        simp [debit_mca_loop, h, ih]

theorem debit_expense_loop_eq (t : Transaction) (desc : List Char)
    (ps : List (List Char)) :
    debit_expense_loop t desc ps =
      (if ps.any (fun p => substrIn (upper p) desc) then
        some { t with category := some TransactionCategory.OPERATING_EXPENSE }
      else none) := by
  induction ps with
  | nil => simp [debit_expense_loop]
  | cons p ps ih =>
      by_cases h : substrIn (upper p) desc = true <;>
        simp [debit_expense_loop, h, ih]

theorem debit_transfer_loop_eq (t : Transaction) (desc : List Char)
    (ps : List (List Char)) :
    debit_transfer_loop t desc ps =
      (if ps.any (fun p => substrIn (upper p) desc) then
        some { t with category := some TransactionCategory.TRANSFER_OUT }
      else none) := by
  induction ps with
  | nil => simp [debit_transfer_loop]
  | cons p ps ih =>
      by_cases h : substrIn (upper p) desc = true <;>
        simp [debit_transfer_loop, h, ih]

theorem nsf_pattern_loop_eq (desc : List Char) (ps : List (List Char)) :
    nsf_pattern_loop desc ps = ps.any (fun p => substrIn (upper p) desc) := by
  induction ps with
  | nil => simp [nsf_pattern_loop]
  | cons p ps ih => simp [nsf_pattern_loop, ih]

/-- `_classify_credit` as a two-way decision: the non-true-revenue table is
consulted first; a credit matching neither table gets the same outcome as a
true-revenue match, so the last two arms coincide. -/
theorem classify_credit_eq (t : Transaction) (desc : List Char) :
    classify_credit t desc =
      (if credit_non_true_revenue.any (fun p => substrIn (upper p) desc) then
        { t with category := some TransactionCategory.NON_TRUE_REVENUE,
                 is_true_revenue := false }
      else
        { t with category := some TransactionCategory.TRUE_REVENUE,
                 is_true_revenue := true }) := by
  unfold classify_credit
  rw [credit_non_true_loop_eq, credit_true_loop_eq]
  by_cases h1 : credit_non_true_revenue.any (fun p => substrIn (upper p) desc) = true <;>
    by_cases h2 : credit_true_revenue.any (fun p => substrIn (upper p) desc) = true <;>
      simp [h1, h2]

/-- `_classify_debit` as a four-way decision tree. -/
theorem classify_debit_eq (t : Transaction) (desc : List Char) :
    classify_debit t desc =
      (if mca_payment_patterns.any (fun ps => seqMatch (ps.map upper) desc) then
        { t with category := some TransactionCategory.MCA_PAYMENT,
                 is_mca_payment := true,
                 mca_lender := extract_lender_name desc }
      else if operating_expenses.any (fun p => substrIn (upper p) desc) then
        { t with category := some TransactionCategory.OPERATING_EXPENSE }
      else if transfers_out.any (fun p => substrIn (upper p) desc) then
        { t with category := some TransactionCategory.TRANSFER_OUT }
      else { t with category := some TransactionCategory.OPERATING_EXPENSE }) := by
  unfold classify_debit
  rw [debit_mca_loop_eq, debit_expense_loop_eq, debit_transfer_loop_eq]
  by_cases h1 : mca_payment_patterns.any (fun ps => seqMatch (ps.map upper) desc) = true <;>
    by_cases h2 : operating_expenses.any (fun p => substrIn (upper p) desc) = true <;>
      by_cases h3 : transfers_out.any (fun p => substrIn (upper p) desc) = true <;>
        simp [h1, h2, h3]

/-- `_is_nsf_transaction` with its keyword loop replaced by `List.any`. -/
theorem is_nsf_transaction_eq (t : Transaction) (desc : List Char) :
    is_nsf_transaction t desc =
      (nsf_patterns.any (fun p => substrIn (upper p) desc) ||
       decide (t.balance < 0) ||
       (substrIn (("RETURN").data) desc && decide (0 < t.amount))) := by
  unfold is_nsf_transaction
  rw [nsf_pattern_loop_eq]

/-- The NSF test reads only the balance, the amount and the (precomputed)
description, so it is insensitive to the classification fields. -/
theorem is_nsf_transaction_congr (u t : Transaction) (desc : List Char)
    (hb : u.balance = t.balance) (ha : u.amount = t.amount) :
    is_nsf_transaction u desc = is_nsf_transaction t desc := by
  unfold is_nsf_transaction
  rw [hb, ha]

theorem classify_credit_balance (t : Transaction) (desc : List Char) :
    (classify_credit t desc).balance = t.balance := by
  rw [classify_credit_eq]; split <;> rfl

theorem classify_credit_amount (t : Transaction) (desc : List Char) :
    (classify_credit t desc).amount = t.amount := by
  rw [classify_credit_eq]; split <;> rfl

theorem classify_debit_balance (t : Transaction) (desc : List Char) :
    (classify_debit t desc).balance = t.balance := by
  rw [classify_debit_eq]; split <;> first | rfl | (split <;> first | rfl | (split <;> rfl))

theorem classify_debit_amount (t : Transaction) (desc : List Char) :
    (classify_debit t desc).amount = t.amount := by
  rw [classify_debit_eq]; split <;> first | rfl | (split <;> first | rfl | (split <;> rfl))

theorem branch_balance (t : Transaction) (desc : List Char) :
    (if t.transaction_type = TransactionType.CREDIT then classify_credit t desc
     else classify_debit t desc).balance = t.balance := by
  split
  · exact classify_credit_balance t desc
  · exact classify_debit_balance t desc

theorem branch_amount (t : Transaction) (desc : List Char) :
    (if t.transaction_type = TransactionType.CREDIT then classify_credit t desc
     else classify_debit t desc).amount = t.amount := by
  split
  · exact classify_credit_amount t desc
  · exact classify_debit_amount t desc

/-- Normal form of `classify_transaction`: the NSF override condition can
be read off the input transaction, because the credit/debit branch never
changes the balance, the amount or the description. -/
theorem classify_transaction_eq (t : Transaction) :
    classify_transaction t =
      (if nsf_patterns.any (fun p => substrIn (upper p) (upper t.description)) ||
          decide (t.balance < 0) ||
          (substrIn (("RETURN").data) (upper t.description) && decide (0 < t.amount)) then
        { (if t.transaction_type = TransactionType.CREDIT then
             classify_credit t (upper t.description)
           else classify_debit t (upper t.description)) with
          category := some TransactionCategory.NON_TRUE_REVENUE }
      else
        (if t.transaction_type = TransactionType.CREDIT then
           classify_credit t (upper t.description)
         else classify_debit t (upper t.description))) := by
  simp only [classify_transaction]
  rw [is_nsf_transaction_congr
        (if t.transaction_type = TransactionType.CREDIT then
           classify_credit t (upper t.description)
         else classify_debit t (upper t.description)) t (upper t.description)
        (branch_balance t (upper t.description)) (branch_amount t (upper t.description)),
      is_nsf_transaction_eq]

/-!  Support lemmas about the string primitives.  -/

theorem isPrefixOfL_exists (p : List Char) :
    ∀ s, isPrefixOfL p s = true → ∃ r, s = p ++ r := by
  induction p with
  | nil => exact fun s _ => ⟨s, rfl⟩
  | cons a as ih =>
    intro s h
    cases s with
    | nil => simp [isPrefixOfL] at h
    | cons b bs =>
      simp only [isPrefixOfL, Bool.and_eq_true, beq_iff_eq] at h
      obtain ⟨r, hr⟩ := ih bs h.2
      exact ⟨r, by simp [h.1, hr]⟩

theorem findRest_exists (p : List Char) :
    ∀ s r, findRest p s = some r → ∃ pre, s = pre ++ p ++ r := by
  intro s
  induction s with
  | nil =>
    intro r h
    unfold findRest at h
    by_cases hp : isPrefixOfL p [] = true
    · rw [if_pos hp] at h
      obtain ⟨r', hr'⟩ := isPrefixOfL_exists p [] hp
      have hp0 : p = [] := by
        cases p with
        | nil => rfl
        | cons x xs => simp at hr'
      injection h with h'
      exact ⟨[], by simp [hp0, ← h']⟩
    · rw [if_neg hp] at h
      exact absurd h (by simp)
  | cons c t ih =>
    intro r h
    unfold findRest at h
    by_cases hp : isPrefixOfL p (c :: t) = true
    · rw [if_pos hp] at h
      obtain ⟨r', hr'⟩ := isPrefixOfL_exists p (c :: t) hp
      injection h with h'
      refine ⟨[], ?_⟩
      have hd : (c :: t).drop p.length = r' := by
        rw [hr']; exact List.drop_left p r'
      rw [← h', hd, hr']
      simp
    · rw [if_neg hp] at h
      obtain ⟨pre, hpre⟩ := ih r h
      exact ⟨c :: pre, by simp [hpre]⟩

theorem substrIn_mem (p s : List Char) (h : substrIn p s = true) :
    ∀ c ∈ p, c ∈ s := by
  unfold substrIn at h
  cases hf : findRest p s with
  | none => rw [hf] at h; simp at h
  | some r =>
    obtain ⟨pre, hpre⟩ := findRest_exists p s r hf
    intro c hc
    rw [hpre]
    simp [hc]

theorem seqMatch_mem (ps : List (List Char)) :
    ∀ s, seqMatch ps s = true → ∀ pp ∈ ps, ∀ c ∈ pp, c ∈ s := by
  induction ps with
  | nil => intro s _ pp hpp; simp at hpp
  | cons p rest ih =>
    intro s h pp hpp c hc
    unfold seqMatch at h
    cases hf : findRest p s with
    | none => rw [hf] at h; simp at h
    | some r =>
      rw [hf] at h
      obtain ⟨pre, hpre⟩ := findRest_exists p s r hf
      rcases List.mem_cons.mp hpp with rfl | h2
      · rw [hpre]; simp [hc]
      · have hcr : c ∈ r := ih r h pp h2 c hc
        rw [hpre]; simp [hcr]

theorem wordsOf_ne_nil (l : List Char) (c : Char) (hc : c ∈ l)
    (hs : pySpace c = false) : wordsOf l ≠ [] := by
  induction l with
  | nil => simp at hc
  | cons a t ih =>
    have hcons : splitChunks (a :: t) =
        (if pySpace a then [] :: splitChunks t
         else
           match splitChunks t with
           | [] => [[a]]
           | w :: ws => (a :: w) :: ws) := by
      simp [splitChunks]
    cases hsa : pySpace a with
    | false =>
      unfold wordsOf
      rw [hcons, hsa, if_neg (by simp)]
      cases hsc : splitChunks t with
      | nil => simp
      | cons w ws => simp
    | true =>
      have hct : c ∈ t := by
        rcases List.mem_cons.mp hc with rfl | h
        · rw [hsa] at hs; exact absurd hs (by simp)
        · exact h
      have h1 := ih hct
      unfold wordsOf
      rw [hcons, hsa, if_pos rfl]
      have h2 : List.filter (fun w => !w.isEmpty) ([] :: splitChunks t) =
          List.filter (fun w => !w.isEmpty) (splitChunks t) := by
        simp [List.filter_cons]
      rw [h2]
      exact h1

theorem extract_lender_name_ne_none (description : List Char)
    (c : Char) (hc : c ∈ description) (hs : pySpace c = false) :
    extract_lender_name description ≠ none := by
  unfold extract_lender_name
  split
  · simp
  · split
    · simp
    · split
      · simp
      · split
        · simp
        · cases horig : origCoSearch description with
          | some g => simp [horig]
          | none =>
            simp only [horig]
            cases hw : wordsOf description with
            | nil => exact absurd hw (wordsOf_ne_nil description c hc hs)
            | cons w ws => simp [hw]

/-- Every debit lender-signature regex carries at least one non-whitespace
character in some literal segment (checked on the concrete rule table). -/
theorem mca_patterns_have_letters :
    mca_payment_patterns.all
      (fun ps => ps.any (fun seg => (upper seg).any (fun ch => !pySpace ch))) = true := by
  decide

/-!  Claim C2: the negative-balance NSF override.  -/

/-- C2: every transaction whose post-transaction balance is negative is
classified NON_TRUE_REVENUE, whatever its description and whatever
category the credit/debit branch chose: the NSF override is evaluated
last and supersedes the branch result. -/
theorem negative_balance_forces_non_true_revenue (t : Transaction)
    (h : t.balance < 0) :
    (classify_transaction t).category = some TransactionCategory.NON_TRUE_REVENUE := by
  rw [classify_transaction_eq]
  have hb : decide (t.balance < 0) = true := decide_eq_true h
  simp [hb]

/-- A concrete debit with a matching operating-expense keyword but a
negative post-transaction balance. -/
def negative_balance_example : Transaction :=
  { date := { year := 2024, month := 1, day := 5, weekday := 4 },
    description := ("RENT PAYMENT JANUARY").data,
    amount := -50, balance := -1,
    transaction_type := TransactionType.DEBIT,
    category := none, is_true_revenue := false, is_mca_payment := false,
    mca_lender := none }

theorem negative_balance_forces_non_true_revenue_witness :
    negative_balance_example.balance < 0 ∧
    (classify_transaction negative_balance_example).category =
      some TransactionCategory.NON_TRUE_REVENUE :=
  ⟨by decide, negative_balance_forces_non_true_revenue negative_balance_example (by decide)⟩

/-!  Claim C1: category/flag consistency.  The code violates the claim as
stated: the NSF override rewrites only `category`, so a transaction whose
branch outcome was TRUE_REVENUE or MCA_PAYMENT keeps its branch flag while
ending at category NON_TRUE_REVENUE.  -/

/-- A raw credit matching the true-revenue keyword `PAYMENT` whose
post-transaction balance is negative. -/
def misflagged_credit_example : Transaction :=
  { date := { year := 2024, month := 3, day := 2, weekday := 5 },
    description := ("PAYMENT").data,
    amount := 100, balance := -5,
    transaction_type := TransactionType.CREDIT,
    category := none, is_true_revenue := false, is_mca_payment := false,
    mca_lender := none }

/-- C1 counterexample: after classification of `misflagged_credit_example`
the flag `is_true_revenue` is true while the category is NON_TRUE_REVENUE
(the NSF override fired on the negative balance), so the claimed
equivalence `is_true_revenue ⇔ category = TRUE_REVENUE` fails. -/
theorem flag_consistency_counterexample :
    ¬(((classify_transaction misflagged_credit_example).is_true_revenue = true) ↔
      ((classify_transaction misflagged_credit_example).category =
        some TransactionCategory.TRUE_REVENUE)) := by
  decide

/-- C1 amended: for a raw transaction (both flags initially false) the
classifier always assigns exactly one category (the `category` field is
`some _` after every branch), and whenever the NSF override does not fire
the two flags are consistent with the final category
(`is_true_revenue ⇔ TRUE_REVENUE`, `is_mca_payment ⇔ MCA_PAYMENT`). -/
theorem category_flag_consistency_amended (t : Transaction)
    (h1 : t.is_true_revenue = false) (h2 : t.is_mca_payment = false) :
    (∃ c, (classify_transaction t).category = some c) ∧
    (is_nsf_transaction t (upper t.description) = false →
      (((classify_transaction t).is_true_revenue = true) ↔
        ((classify_transaction t).category = some TransactionCategory.TRUE_REVENUE)) ∧
      (((classify_transaction t).is_mca_payment = true) ↔
        ((classify_transaction t).category = some TransactionCategory.MCA_PAYMENT))) := by
  rw [classify_transaction_eq, classify_credit_eq, classify_debit_eq]
  constructor
  · split
    · exact ⟨TransactionCategory.NON_TRUE_REVENUE, rfl⟩
    · split
      · split
        · exact ⟨TransactionCategory.NON_TRUE_REVENUE, rfl⟩
        · exact ⟨TransactionCategory.TRUE_REVENUE, rfl⟩
      · split
        · exact ⟨TransactionCategory.MCA_PAYMENT, rfl⟩
        · split
          · exact ⟨TransactionCategory.OPERATING_EXPENSE, rfl⟩
          · split
            · exact ⟨TransactionCategory.TRANSFER_OUT, rfl⟩
            · exact ⟨TransactionCategory.OPERATING_EXPENSE, rfl⟩
  · intro h3
    rw [is_nsf_transaction_eq] at h3
    simp only [h3, Bool.false_eq_true, if_false]
    split
    · split <;> simp [h1, h2]
    · split
      · simp [h1]
      · split
        · simp [h1, h2]
        · split <;> simp [h1, h2]

/-- A raw debit matching only the operating-expense table (no NSF
keyword, positive balance). -/
def raw_debit_example : Transaction :=
  { date := { year := 2024, month := 7, day := 1, weekday := 0 },
    description := ("PAYROLL JULY").data,
    amount := -500, balance := 100,
    transaction_type := TransactionType.DEBIT,
    category := none, is_true_revenue := false, is_mca_payment := false,
    mca_lender := none }

theorem category_flag_consistency_amended_witness :
    raw_debit_example.is_true_revenue = false ∧
    raw_debit_example.is_mca_payment = false ∧
    ((∃ c, (classify_transaction raw_debit_example).category = some c) ∧
     (is_nsf_transaction raw_debit_example (upper raw_debit_example.description) = false →
       (((classify_transaction raw_debit_example).is_true_revenue = true) ↔
         ((classify_transaction raw_debit_example).category =
           some TransactionCategory.TRUE_REVENUE)) ∧
       (((classify_transaction raw_debit_example).is_mca_payment = true) ↔
         ((classify_transaction raw_debit_example).category =
           some TransactionCategory.MCA_PAYMENT)))) :=
  ⟨rfl, rfl, category_flag_consistency_amended raw_debit_example rfl rfl⟩

/-!  Claim C6: credit classification order.  -/

/-- C6: for a credit transaction the ordered non-true-revenue table is
consulted first — any match there yields NON_TRUE_REVENUE with
`is_true_revenue = false` and returns; only otherwise is the
true-revenue table consulted, and a credit matching neither table
defaults to TRUE_REVENUE with `is_true_revenue = true`. -/
theorem credit_rule_order (t : Transaction) :
    classify_credit t (upper t.description) =
      (if credit_non_true_revenue.any
          (fun p => substrIn (upper p) (upper t.description)) then
        { t with category := some TransactionCategory.NON_TRUE_REVENUE,
                 is_true_revenue := false }
      else if credit_true_revenue.any
          (fun p => substrIn (upper p) (upper t.description)) then
        { t with category := some TransactionCategory.TRUE_REVENUE,
                 is_true_revenue := true }
      else
        { t with category := some TransactionCategory.TRUE_REVENUE,
                 is_true_revenue := true }) := by
  rw [classify_credit_eq]
  by_cases h2 : credit_true_revenue.any
      (fun p => substrIn (upper p) (upper t.description)) = true <;>
    simp [h2]

/-!  Claim C8: the NSF override is a one-field mutation.  -/

/-- C8: whenever the NSF condition holds of a transaction (NSF keyword,
negative balance, or RETURN with positive amount), the classifier's result
is exactly the credit/debit branch result with only `category` rewritten
to NON_TRUE_REVENUE: `is_true_revenue`, `is_mca_payment`, `mca_lender` and
all other fields keep the values assigned by the branch. -/
theorem nsf_override_frame (t : Transaction)
    (h : is_nsf_transaction t (upper t.description) = true) :
    classify_transaction t =
      { (if t.transaction_type = TransactionType.CREDIT then
           classify_credit t (upper t.description)
         else classify_debit t (upper t.description)) with
        category := some TransactionCategory.NON_TRUE_REVENUE } := by
  rw [classify_transaction_eq]
  rw [is_nsf_transaction_eq] at h
  simp [h]

/-- A raw credit matching the true-revenue keyword `DEPOSIT` with a
negative balance: the override fires and the branch-assigned
`is_true_revenue = true` survives. -/
def nsf_credit_example : Transaction :=
  { date := { year := 2024, month := 4, day := 9, weekday := 1 },
    description := ("DEPOSIT").data,
    amount := 200, balance := -7,
    transaction_type := TransactionType.CREDIT,
    category := none, is_true_revenue := false, is_mca_payment := false,
    mca_lender := none }

theorem nsf_override_frame_witness :
    is_nsf_transaction nsf_credit_example (upper nsf_credit_example.description) = true ∧
    classify_transaction nsf_credit_example =
      { (if nsf_credit_example.transaction_type = TransactionType.CREDIT then
           classify_credit nsf_credit_example (upper nsf_credit_example.description)
         else classify_debit nsf_credit_example (upper nsf_credit_example.description)) with
        category := some TransactionCategory.NON_TRUE_REVENUE } :=
  ⟨by decide, nsf_override_frame nsf_credit_example (by decide)⟩

/-!  Claim C7: idempotence of classification.  -/

/-- C7: classification is a pure function of `direction`, `description`,
`amount` and `balance`, none of which it modifies; re-classifying an
already classified transaction reproduces it exactly (all fields,
including `category`, `is_true_revenue`, `is_mca_payment`, `mca_lender`). -/
theorem classification_idempotent (t : Transaction) :
    classify_transaction (classify_transaction t) = classify_transaction t := by
  obtain ⟨d, ds, a, b, ty, c, itr, imp, ml⟩ := t
  cases ty
  case CREDIT =>
    cases hn : (nsf_patterns.any (fun p => substrIn (upper p) (upper ds)) ||
        decide (b < 0) ||
        (substrIn (("RETURN").data) (upper ds) && decide (0 < a))) <;>
    cases hm : credit_non_true_revenue.any
        (fun p => substrIn (upper p) (upper ds)) <;>
      simp [classify_transaction_eq, classify_credit_eq, hn, hm]
  case DEBIT =>
    cases hn : (nsf_patterns.any (fun p => substrIn (upper p) (upper ds)) ||
        decide (b < 0) ||
        (substrIn (("RETURN").data) (upper ds) && decide (0 < a))) <;>
    cases hp1 : mca_payment_patterns.any
        (fun ps => seqMatch (ps.map upper) (upper ds)) <;>
    cases hp2 : operating_expenses.any
        (fun p => substrIn (upper p) (upper ds)) <;>
    cases hp3 : transfers_out.any
        (fun p => substrIn (upper p) (upper ds)) <;>
      simp [classify_transaction_eq, classify_debit_eq, hn, hp1, hp2, hp3]

/-!  Claim C10: a freshly marked MCA payment always carries a lender.  -/

/-- Helper for C10: a description matched by some lender-signature regex
contains a non-whitespace character, so lender extraction cannot fail. -/
theorem mca_match_extract_ne_none (desc : List Char)
    (hp1 : mca_payment_patterns.any (fun ps => seqMatch (List.map upper ps) desc) = true) :
    extract_lender_name desc ≠ none := by
  have hex : ∃ ps ∈ mca_payment_patterns,
      seqMatch (List.map upper ps) desc = true := by
    simpa using hp1
  obtain ⟨ps, hps, hmatch⟩ := hex
  have hall := mca_patterns_have_letters
  rw [List.all_eq_true] at hall
  obtain ⟨seg, hseg1, ch, hch, hchs⟩ :
      ∃ seg ∈ ps, ∃ ch ∈ upper seg, pySpace ch = false := by
    simpa using hall ps hps
  have hchd : ch ∈ desc :=
    seqMatch_mem (List.map upper ps) desc hmatch (upper seg)
      (List.mem_map_of_mem upper hseg1) ch hch
  exact extract_lender_name_ne_none desc ch hchd hchs

/-- C10: when the classifier marks a raw debit as an MCA payment (flag
initially false, true afterwards), `mca_lender` is populated: every
lender-signature pattern forces a non-whitespace substring into the
description, so lender extraction either captures via a regex or falls
back to the first words of the (then non-empty) description — never
`none`. -/
theorem mca_lender_nonnull (t : Transaction)
    (h1 : t.transaction_type = TransactionType.DEBIT)
    (h2 : t.is_mca_payment = false)
    (h3 : (classify_transaction t).is_mca_payment = true) :
    (classify_transaction t).mca_lender ≠ none := by
  rw [classify_transaction_eq, classify_debit_eq] at h3 ⊢
  rw [h1] at h3 ⊢
  cases hn : (nsf_patterns.any (fun p => substrIn (upper p) (upper t.description)) ||
      decide (t.balance < 0) ||
      (substrIn (("RETURN").data) (upper t.description) && decide (0 < t.amount))) <;>
  cases hp1 : mca_payment_patterns.any
      (fun ps => seqMatch (ps.map upper) (upper t.description)) <;>
    simp only [hn, hp1, Bool.false_eq_true, Bool.true_eq_false, if_false, if_true,
      reduceCtorEq, if_neg, ite_false, ite_true] at h3 ⊢
  case false.false =>
    exfalso
    rw [h2] at h3
    split at h3
    · simp at h3
    · split at h3 <;> simp at h3
  case false.true =>
    exact mca_match_extract_ne_none (upper t.description) hp1
  case true.false =>
    exfalso
    rw [h2] at h3
    split at h3
    · simp at h3
    · split at h3 <;> simp at h3
  case true.true =>
    exact mca_match_extract_ne_none (upper t.description) hp1

/-- A raw debit matching the `.*KABBAGE.*` lender signature. -/
def mca_debit_example : Transaction :=
  { date := { year := 2024, month := 2, day := 6, weekday := 1 },
    description := ("KABBAGE PMT 4471").data,
    amount := -150, balance := 850,
    transaction_type := TransactionType.DEBIT,
    category := none, is_true_revenue := false, is_mca_payment := false,
    mca_lender := none }

theorem mca_lender_nonnull_witness :
    mca_debit_example.transaction_type = TransactionType.DEBIT ∧
    mca_debit_example.is_mca_payment = false ∧
    (classify_transaction mca_debit_example).is_mca_payment = true ∧
    (classify_transaction mca_debit_example).mca_lender ≠ none :=
  ⟨rfl, rfl, by decide,
   mca_lender_nonnull mca_debit_example rfl rfl (by decide)⟩

/-!  Claims C3 and C9: the fraud-score contract.  The specification-side
definitions below are formalised from the claim's wording (integer
threshold inequalities, explicit label lists) and proved equal to the
embedded code.  -/

/-- Two booleans agreeing as propositions are equal. -/
theorem bool_ext (x y : Bool) (h : x = true ↔ y = true) : x = y := by
  cases x <;> cases y <;> simp_all

/-- Formalised from the claim: the amount is an exact multiple of 100,
stated as the quotient by 100 being its own integer floor. -/
def multiple_of_100 (a : ℚ) : Bool := decide (a / 100 = ((⌊a / 100⌋ : ℤ) : ℚ))

theorem is_round_amount_eq (a : ℚ) : is_round_amount a = multiple_of_100 a := by
  apply bool_ext
  unfold is_round_amount multiple_of_100
  simp only [beq_iff_eq, decide_eq_true_eq]
  constructor
  · intro h
    have h1 := (Rat.den_eq_one_iff (a / 100)).mp h
    have h2 : ⌊a / 100⌋ = (a / 100).num := by
      conv_lhs => rw [← h1]
      exact Int.floor_intCast (a / 100).num
    rw [h2, h1]
  · intro h
    rw [h]
    exact Rat.den_intCast ⌊a / 100⌋

/-- Formalised from the claim: at least 10 credit transactions and the
multiples-of-100 fraction strictly exceeds 0.3 — as the integer
inequality `3 · credits < 10 · round`. -/
def round_number_spec (ts : List Transaction) : Bool :=
  decide (10 ≤ (credits ts).length) &&
  decide (3 * (credits ts).length <
    10 * ((credits ts).filter (fun t => multiple_of_100 t.amount)).length)

/-- Formalised from the claim: some exact credit amount recurs more than
5 times. -/
def identical_deposits_spec (ts : List Transaction) : Bool :=
  ((credits ts).map (fun t => t.amount)).any
    (fun a => decide (5 < ((credits ts).map (fun t => t.amount)).count a))

/-- Formalised from the claim: at least one credit transaction and the
weekend fraction strictly exceeds 0.2 — as `credits < 5 · weekend`. -/
def unusual_timing_spec (ts : List Transaction) : Bool :=
  decide (0 < (credits ts).length) &&
  decide ((credits ts).length <
    5 * ((credits ts).filter (fun t => decide (5 ≤ t.date.weekday))).length)

/-- Formalised from the claim: at least 20 credit transactions and some
single amount exceeds 5 times the mean credit amount — as
`5 · sum < amount · count`. -/
def pattern_break_spec (ts : List Transaction) : Bool :=
  decide (20 ≤ (credits ts).length) &&
  ((credits ts).map (fun t => t.amount)).any
    (fun a => decide (5 * ((credits ts).map (fun t => t.amount)).sum <
      a * ((((credits ts).map (fun t => t.amount)).length : ℚ))))

/-- Formalised from the claim: the capped sum of the four fixed
contributions and the triggered labels in fixed evaluation order. -/
def thumbprint_score_spec (ts : List Transaction) : Nat × List String :=
  let p1 : Nat := if round_number_spec ts then 150 else 0
  let p2 : Nat := if identical_deposits_spec ts then 200 else 0
  let p3 : Nat := if unusual_timing_spec ts then 100 else 0
  let p4 : Nat := if pattern_break_spec ts then 100 else 0
  (min (p1 + p2 + p3 + p4) 1000,
   (if round_number_spec ts then [("Round number deposits")] else []) ++
   (if identical_deposits_spec ts then [("Repeated identical amounts")] else []) ++
   (if unusual_timing_spec ts then [("Unusual deposit timing")] else []) ++
   (if pattern_break_spec ts then [("Inconsistent patterns")] else []))

theorem has_round_number_pattern_eq (ts : List Transaction) :
    has_round_number_pattern ts = round_number_spec ts := by
  unfold has_round_number_pattern round_number_spec
  simp only [is_round_amount_eq]
  by_cases h : (credits ts).length < 10
  · rw [if_pos h]
    have : ¬(10 ≤ (credits ts).length) := by omega
    simp [this]
  · rw [if_neg h]
    have h10 : 10 ≤ (credits ts).length := by omega
    have hn0 : (0 : ℚ) < ((credits ts).length : ℚ) := by
      exact_mod_cast Nat.lt_of_lt_of_le (by norm_num) h10
    rw [decide_eq_true h10, Bool.true_and]
    apply bool_ext
    simp only [decide_eq_true_eq]
    rw [div_lt_div_iff₀ (by norm_num) hn0,
      mul_comm (((credits ts).filter (fun t => multiple_of_100 t.amount)).length : ℚ) 10]
    norm_cast

theorem has_identical_deposits_eq (ts : List Transaction) :
    has_identical_deposits ts = identical_deposits_spec ts := rfl

theorem has_unusual_timing_eq (ts : List Transaction) :
    has_unusual_timing ts = unusual_timing_spec ts := by
  unfold has_unusual_timing unusual_timing_spec
  by_cases h : (credits ts).length = 0
  · rw [if_pos h]
    simp [h]
  · rw [if_neg h]
    have hpos : 0 < (credits ts).length := Nat.pos_of_ne_zero h
    have hn0 : (0 : ℚ) < ((credits ts).length : ℚ) := by exact_mod_cast hpos
    rw [decide_eq_true hpos, Bool.true_and]
    apply bool_ext
    simp only [decide_eq_true_eq]
    rw [div_lt_div_iff₀ (by norm_num) hn0, one_mul,
      mul_comm (((credits ts).filter (fun t => decide (5 ≤ t.date.weekday))).length : ℚ) 5]
    norm_cast

theorem has_pattern_breaks_eq (ts : List Transaction) :
    has_pattern_breaks ts = pattern_break_spec ts := by
  unfold has_pattern_breaks pattern_break_spec
  by_cases h : (credits ts).length < 20
  · rw [if_pos h]
    have : ¬(20 ≤ (credits ts).length) := by omega
    simp [this]
  · rw [if_neg h]
    have h20 : 20 ≤ (credits ts).length := by omega
    have hlen : ((credits ts).map (fun t => t.amount)).length = (credits ts).length :=
      List.length_map _ _
    have hn0 : (0 : ℚ) < (((credits ts).map (fun t => t.amount)).length : ℚ) := by
      rw [hlen]
      exact_mod_cast Nat.lt_of_lt_of_le (by norm_num) h20
    rw [decide_eq_true h20, Bool.true_and]
    apply bool_ext
    simp only [List.any_eq_true, decide_eq_true_eq]
    constructor
    · rintro ⟨a, ha, hlt⟩
      refine ⟨a, ha, ?_⟩
      rw [div_mul_eq_mul_div, div_lt_iff₀ hn0] at hlt
      linarith
    · rintro ⟨a, ha, hlt⟩
      refine ⟨a, ha, ?_⟩
      rw [div_mul_eq_mul_div, div_lt_iff₀ hn0]
      linarith

/-- The embedded scorer agrees with the specification-side scorer. -/
theorem calculate_thumbprint_score_eq (ts : List Transaction) :
    calculate_thumbprint_score ts = thumbprint_score_spec ts := by
  unfold calculate_thumbprint_score thumbprint_score_spec
  rw [has_round_number_pattern_eq, has_identical_deposits_eq,
    has_unusual_timing_eq, has_pattern_breaks_eq]
  cases round_number_spec ts <;> cases identical_deposits_spec ts <;>
    cases unusual_timing_spec ts <;> cases pattern_break_spec ts <;> simp

/-- C3: the fraud score is the capped sum of the four fixed contributions
(round-number +150, identical deposits +200, unusual timing +100, pattern
break +100, with exactly the thresholds of the claim), the factors list
holds exactly the triggered labels in fixed evaluation order, and the
score lies in [0, 1000]. -/
theorem thumbprint_score_contract (ts : List Transaction) :
    calculate_thumbprint_score ts = thumbprint_score_spec ts ∧
    (calculate_thumbprint_score ts).1 ≤ 1000 := by
  refine ⟨calculate_thumbprint_score_eq ts, ?_⟩
  unfold calculate_thumbprint_score
  exact Nat.min_le_right _ _

/-- The fixed point value of each fraud-factor label. -/
def factor_points (label : String) : Nat :=
  if label = "Round number deposits" then 150
  else if label = "Repeated identical amounts" then 200
  else if label = "Unusual deposit timing" then 100
  else if label = "Inconsistent patterns" then 100
  else 0

/-- C9: the fraud score never exceeds 550 = 150 + 200 + 100 + 100 (so the
cap at 1000 never binds), and it equals the sum of the point values of the
labels in the returned factors list. -/
theorem thumbprint_score_bounded_sum (ts : List Transaction) :
    (calculate_thumbprint_score ts).1 ≤ 550 ∧
    (calculate_thumbprint_score ts).1 =
      ((calculate_thumbprint_score ts).2.map factor_points).sum := by
  cases h1 : has_round_number_pattern ts <;>
  cases h2 : has_identical_deposits ts <;>
  cases h3 : has_unusual_timing ts <;>
  cases h4 : has_pattern_breaks ts <;>
    simp [calculate_thumbprint_score, h1, h2, h3, h4, factor_points]

/-!  Claim C5: the final-confidence blend.  -/

/-- Formalised from the claim: base confidence minus 0.3 when the fraud
score exceeds 500 (else minus 0.1 when it exceeds 200), minus 0.2 when
fewer than 20 transactions, plus 0.1 when at least three distinct non-null
categories are present, clamped to [0, 1]. -/
def confidence_spec (base : ℚ) (ts : List Transaction) (fraud : Nat) : ℚ :=
  let fraud_adjust : ℚ :=
    if 500 < fraud then 3 / 10 else if 200 < fraud then 1 / 10 else 0
  let count_adjust : ℚ := if ts.length < 20 then 2 / 10 else 0
  let variety_adjust : ℚ :=
    if 3 ≤ ((ts.filterMap (fun t => t.category)).dedup).length then 1 / 10 else 0
  max 0 (min 1 (base - fraud_adjust - count_adjust + variety_adjust))

/-- C5: the final confidence equals the claimed formula and always lies in
[0, 1]. -/
theorem final_confidence_contract (base : ℚ) (ts : List Transaction)
    (fraud : Nat) :
    calculate_final_confidence base ts fraud = confidence_spec base ts fraud ∧
    0 ≤ calculate_final_confidence base ts fraud ∧
    calculate_final_confidence base ts fraud ≤ 1 := by
  refine ⟨?_, ?_, ?_⟩
  · unfold calculate_final_confidence confidence_spec
    by_cases h1 : 500 < fraud <;> by_cases h2 : 200 < fraud <;>
      by_cases h3 : ts.length < 20 <;>
      by_cases h4 : 3 ≤ ((ts.filterMap (fun t => t.category)).dedup).length <;>
        simp [h1, h2, h3, h4]
  · unfold calculate_final_confidence
    exact le_max_left 0 _
  · unfold calculate_final_confidence
    exact max_le (by norm_num) (min_le_left 1 _)

/-!  Claim C4: empty ingestion short-circuits the pipeline.  -/

/-- C4: when the OCR stage yields no transactions, the pipeline returns
the empty-result terminal state — empty transaction list, zero MCA
positions, zero monthly summaries, zeroed metrics with `fraud_score = 0`,
zeroed cash-flow fields and confidence 0 — and the result is independent
of every collaborator (the statement quantifies over `C`), so no
classification, fraud-scoring or aggregation stage contributes. -/
theorem empty_ingestion_short_circuit (C : Collaborators)
    (account : BankAccount) (conf : ℚ) (elapsed : ℚ) :
    process_bank_statement C
        { account := account, transactions := [], confidence_score := conf }
        elapsed =
      { account := account,
        transactions := [],
        monthly_summaries := [],
        mca_positions := [],
        metrics := { average_monthly_revenue := 0, revenue_stability := 0,
                     days_cash_on_hand := 0, mca_payment_ratio := 0,
                     deposit_frequency := 0, nsf_rate := 0,
                     negative_day_rate := 0, fraud_score := 0 },
        cash_flow := { gross_cash_in := 0, gross_cash_out := 0,
                       net_cash_flow := 0, true_cash_flow := 0,
                       mca_burden := 0, free_cash_flow := 0 },
        confidence_score := 0,
        processing_time := elapsed } := rfl
